import Mathlib

/-!
Verification of the `timer` repository (modules `timer/timer.py` and
`sample/timer.py`, which duplicate the same `Chronometer`/`Timer` classes;
`timer/timer.py` additionally has `ChronometerDecorator`).

Shallow embedding conventions:
* The process clock `time.clock()` is modelled by passing the current reading
  `now : ℚ` explicitly to every operation that reads the clock.
* Python `None` becomes `Option`, floats become `ℚ`.
* The private chronometer field `__stop_partial` is named `stopElapsed`, the
  `partial` property is named `elapsed` (Lean reserves the source's name),
  `__start` is `startMark` and `__end` (written once in `__init__`, never read)
  is `endMark`.
* The background thread body `Timer._time_out` is modelled as a step function
  on the timer state plus a run over an explicit list of wake-up clock
  readings; `time.sleep(.3)` only advances the clock, so it appears as the gap
  between successive readings in the list.
-/

/-- State of `Chronometer` (`timer/timer.py` lines 35-39):
`__running`, `__start` (None before the first start), `__end` (never used
after `__init__`), `__stop_partial`. -/
structure Chronometer where
  running : Bool
  startMark : Option ℚ
  endMark : Option ℚ
  stopElapsed : ℚ
deriving DecidableEq

/-- `Chronometer.__init__`: stopped, no marks, zero accumulated time. -/
def Chronometer.init : Chronometer :=
  { running := false, startMark := none, endMark := none, stopElapsed := 0 }

/-- The `partial` property (lines 75-80): `time.clock() - self.__start +
self.__stop_partial` while running, else `self.__stop_partial`.  `__start` is
only ever read while running, in which case it has been set; `getD 0` fills
the unreachable `None` case. -/
def Chronometer.elapsed (c : Chronometer) (now : ℚ) : ℚ :=
  if c.running then now - c.startMark.getD 0 + c.stopElapsed else c.stopElapsed

/-- `Chronometer.start` (lines 48-54): no-op when already running, otherwise
set `__running = True` and record the current clock as `__start`. -/
def Chronometer.start (c : Chronometer) (now : ℚ) : Chronometer :=
  if c.running then c else { c with running := true, startMark := some now }

/-- `Chronometer.stop` (lines 60-73): `__stop_partial` becomes `0` when
`reset` else the current `partial`; `__running` becomes `False`. -/
def Chronometer.stop (c : Chronometer) (reset : Bool) (now : ℚ) : Chronometer :=
  { c with stopElapsed := if reset then 0 else c.elapsed now, running := false }

/-- `Chronometer.reset` (lines 56-58): `self.stop(reset=True)`. -/
def Chronometer.reset (c : Chronometer) (now : ℚ) : Chronometer :=
  c.stop true now

/-- A timestamped call to `start()` or `stop()` (with the default
`reset=False`) on a chronometer, for reasoning about call sequences. -/
inductive ChronOp
  | opStart (τ : ℚ)
  | opStop (τ : ℚ)
deriving DecidableEq

/-- Run a sequence of timestamped start/stop calls against the code. -/
def Chronometer.exec (c : Chronometer) : List ChronOp → Chronometer
  | [] => c
  | .opStart τ :: rest => (c.start τ).exec rest
  | .opStop τ :: rest => (c.stop false τ).exec rest

/-- Spec-side fold, written from the spec's words, not from the code: carry
the origin of the currently open running interval (if any) and the sum of the
durations of the closed running intervals so far.  A `start` while stopped
opens an interval, a `stop` while running closes it and adds its duration;
redundant calls change nothing. -/
def specState : Option ℚ × ℚ → List ChronOp → Option ℚ × ℚ
  | st, [] => st
  | (none, acc), .opStart τ :: rest => specState (some τ, acc) rest
  | (some s, acc), .opStart _ :: rest => specState (some s, acc) rest
  | (some s, acc), .opStop τ :: rest => specState (none, acc + (τ - s)) rest
  | (none, acc), .opStop _ :: rest => specState (none, acc) rest

/-- Spec-side value: total duration of the running intervals determined by a
call sequence that starts from a freshly reset chronometer and ends stopped. -/
def intervalSum (ops : List ChronOp) : ℚ :=
  (specState (none, 0) ops).2

/-- Simulation between the code (`Chronometer.exec`) and the spec-side fold
(`specState`): the running flag matches the presence of an open interval, the
recorded start matches its origin, and the accumulated time matches the sum of
closed intervals. -/
theorem exec_specState (ops : List ChronOp) :
    ∀ (c : Chronometer) (s : Option ℚ) (acc : ℚ),
    c.running = s.isSome → (∀ τ, s = some τ → c.startMark = some τ) →
    c.stopElapsed = acc →
    (c.exec ops).running = (specState (s, acc) ops).1.isSome ∧
    (∀ τ, (specState (s, acc) ops).1 = some τ →
      (c.exec ops).startMark = some τ) ∧
    (c.exec ops).stopElapsed = (specState (s, acc) ops).2 := by
  induction ops with
  | nil =>
    intro c s acc h1 h2 h3
    simp only [Chronometer.exec, specState]
    exact ⟨h1, h2, h3⟩
  | cons op rest ih =>
    intro c s acc h1 h2 h3
    cases op with
    | opStart τ =>
      cases s with
      | none =>
        simp only [Option.isSome_none] at h1
        have hc : c.start τ = { c with running := true, startMark := some τ } := by
          simp [Chronometer.start, h1]
        simp only [Chronometer.exec, specState, hc]
        exact ih _ (some τ) acc (by simp) (by intro τ' hτ'; cases hτ'; rfl) h3
      | some s0 =>
        simp only [Option.isSome_some] at h1
        have hc : c.start τ = c := by simp [Chronometer.start, h1]
        simp only [Chronometer.exec, specState, hc]
        exact ih _ (some s0) acc h1 h2 h3
    | opStop τ =>
      cases s with
      | none =>
        simp only [Option.isSome_none] at h1
        have hc : c.stop false τ = { c with running := false } := by
          simp [Chronometer.stop, Chronometer.elapsed, h1]
        simp only [Chronometer.exec, specState, hc]
        exact ih _ none acc (by simp) h2 (by simpa using h3)
      | some s0 =>
        simp only [Option.isSome_some] at h1
        have hmark : c.startMark = some s0 := h2 s0 rfl
        have h4 : c.elapsed τ = acc + (τ - s0) := by
          simp only [Chronometer.elapsed, h1, if_true, hmark, Option.getD_some, h3]
          ring
        have hc : c.stop false τ =
            { c with stopElapsed := acc + (τ - s0), running := false } := by
          simp [Chronometer.stop, h4]
        simp only [Chronometer.exec, specState, hc]
        exact ih _ none (acc + (τ - s0)) (by simp) (by intro τ' hτ'; cases hτ') rfl

/-- State of `Timer` (`timer/timer.py` lines 222-226): the inherited
chronometer fields plus `time_limit` (the constructor's `time` argument),
`callback` (an optional action, of abstract type `α` here) and the expired
flag `time_out`.  The spawned thread handle is not part of the object state;
the thread body `_time_out` is modelled separately below. -/
structure Timer (α : Type) where
  chr : Chronometer
  time_limit : ℚ
  callback : Option α
  time_out : Bool
deriving DecidableEq

/-- `Timer.__init__(time, callback=None)` on a fresh chronometer. -/
def Timer.init (limit : ℚ) (cb : Option α) : Timer α :=
  { chr := Chronometer.init, time_limit := limit, callback := cb,
    time_out := false }

/-- The inherited `running` property. -/
def Timer.running (t : Timer α) : Bool :=
  t.chr.running

/-- The inherited `partial` property. -/
def Timer.elapsed (t : Timer α) (now : ℚ) : ℚ :=
  t.chr.elapsed now

/-- `Timer.stop(**i)` (lines 248-250): only forwards to
`Chronometer.stop(**i)`; like the source it does not touch `time_out`. -/
def Timer.stop (t : Timer α) (reset : Bool) (now : ℚ) : Timer α :=
  { t with chr := t.chr.stop reset now }

/-- `Timer.reset` (lines 252-254): `super().reset()` ends up in
`self.stop(reset=True)` via dynamic dispatch, then `self.time_out = False`. -/
def Timer.reset (t : Timer α) (now : ℚ) : Timer α :=
  { t.stop true now with time_out := false }

/-- `Timer.start` (lines 238-246): implicit reset when expired, then
`Chronometer.start`.  The `Thread(target=self._time_out).start()` line spawns
the polling task, modelled by `Timer.timeOutRun` below. -/
def Timer.start (t : Timer α) (now : ℚ) : Timer α :=
  let t1 := if t.time_out then t.reset now else t
  { t1 with chr := t1.chr.start now }

/-- The `time_left` property (lines 256-260): `time_limit - partial`,
clamped at zero. -/
def Timer.time_left (t : Timer α) (now : ℚ) : ℚ :=
  let left := t.time_limit - t.elapsed now
  if left > 0 then left else 0

/-- Outcome of one iteration of the `while True` loop in `Timer._time_out`
(lines 262-277): either the task sleeps and loops again, or it breaks out;
`invoked` records whether the `if self.callback: self.callback()` branch ran
the callback in that iteration. -/
inductive PollStep (α : Type)
  | sleeping (t : Timer α)
  | finished (invoked : Bool) (t : Timer α)
deriving DecidableEq

/-- One iteration of `Timer._time_out`, evaluated at clock reading `now`:
if running with `time_left > 0`, sleep; if running with `time_left == 0`,
`self.stop()`, set `time_out = True`, invoke the callback when present, and
break; if not running, break at once without invoking anything. -/
def Timer.timeOutStep (t : Timer α) (now : ℚ) : PollStep α :=
  if t.running then
    if t.time_left now > 0 then
      .sleeping t
    else
      let t1 := { t.stop false now with time_out := true }
      .finished t1.callback.isSome t1
  else
    .finished false t

/-- Run the polling loop of `Timer._time_out` over a list of successive
wake-up clock readings (the gaps between them are the `time.sleep(.3)`
calls).  Returns how many times the callback was invoked, the final timer
state, and whether the loop reached its `break` within the given readings. -/
def Timer.timeOutRun (t : Timer α) : List ℚ → Nat × Timer α × Bool
  | [] => (0, t, false)
  | now :: rest =>
    match t.timeOutStep now with
    | .sleeping t1 => t1.timeOutRun rest
    | .finished invoked t1 => (if invoked then 1 else 0, t1, true)

/-- `Timer.__copy__` (lines 228-233) builds `new = type(self)(None, None)`,
overwrites all of `new`'s fields with `self`'s (`__dict__.update`), clears
`new.callback` — and then returns `self`, not `new`.  This is the value that
is constructed and discarded. -/
def Timer.copyDiscarded (t : Timer α) : Timer α :=
  { t with callback := none }

/-- `Timer.__copy__`: the cleaned copy is built and dropped, `self` is
returned. -/
def Timer.copy (t : Timer α) : Timer α :=
  let _new := t.copyDiscarded
  t

/-- `Timer.__deepcopy__` (lines 235-236): delegates to `__copy__`. -/
def Timer.deepcopy (t : Timer α) : Timer α :=
  t.copy

/-- State of `ChronometerDecorator` (`timer/timer.py` lines 134-138): the
inherited chronometer plus the list of recorded times, the `method` flag and
the `print_sum` flag.  `_function` and `func_name` (set in `__call__`) are
passed explicitly to the call wrappers below. -/
structure ChronometerDecorator where
  chr : Chronometer
  time_ls : List ℚ
  method : Bool
  print_sum : Bool
deriving DecidableEq

/-- `ChronometerDecorator.register` (lines 162-174): append the current
`partial` to `time_ls`, print the message (I/O, no state effect), then
`self.reset()`. -/
def ChronometerDecorator.register (d : ChronometerDecorator) (now : ℚ) :
    ChronometerDecorator :=
  { d with
    time_ls := d.time_ls ++ [d.chr.elapsed now],
    chr := d.chr.reset now }

/-- What an instrumented call produces: the decorator state afterwards, the
argument lists the wrapped callable was invoked with (in order), and the
value the wrapper hands back to its caller. -/
structure CallResult (γ β : Type) where
  state : ChronometerDecorator
  calls : List γ
  value : Option β
deriving DecidableEq

/-- `ChronometerDecorator.function_call` (lines 149-153): start, invoke the
wrapped function with the original arguments, stop, register.  The wrapper
body has no `return` statement, so the caller receives Python's `None`;
`f x`'s result is bound to nothing. -/
def ChronometerDecorator.function_call (d : ChronometerDecorator) (f : γ → β)
    (x : γ) (tStart tStop : ℚ) : CallResult γ β :=
  let d1 := { d with chr := d.chr.start tStart }
  let _r := f x
  let d2 := { d1 with chr := d1.chr.stop false tStop }
  let d3 := d2.register tStop
  { state := d3, calls := [x], value := none }

/-- `ChronometerDecorator.method_call` (lines 155-160): the static variant
for methods, which passes the receiver `funcSelf` through to the wrapped
function; again start, invoke, stop, register, and no `return` statement. -/
def ChronometerDecorator.method_call (funcSelf : σ)
    (d : ChronometerDecorator) (f : σ → γ → β) (x : γ) (tStart tStop : ℚ) :
    CallResult (σ × γ) β :=
  let d1 := { d with chr := d.chr.start tStart }
  let _r := f funcSelf x
  let d2 := { d1 with chr := d1.chr.stop false tStop }
  let d3 := d2.register tStop
  { state := d3, calls := [(funcSelf, x)], value := none }

/-- The clamping pattern `x if x > 0 else 0` is `max 0 x`. -/
theorem clamp_eq_max (x : ℚ) : (if x > 0 then x else 0) = max 0 x := by
  split_ifs with h
  · exact (max_eq_right h.le).symm
  · exact (max_eq_left (not_lt.mp h)).symm

/-- A sample call sequence: two proper intervals, with a redundant `start`
inside the second one and a redundant `stop` after it. -/
def demoOps : List ChronOp :=
  [.opStart 2, .opStop 5, .opStart 7, .opStart 8, .opStop 11, .opStop 12]

/-- A sample running timer: one second to go, callback attached. -/
def timerW : Timer Unit :=
  { chr := { running := true, startMark := some 0, endMark := none,
             stopElapsed := 0 },
    time_limit := 1, callback := some (), time_out := false }

/-- A sample expired timer. -/
def timerExpired : Timer Unit :=
  { chr := Chronometer.init, time_limit := 5, callback := none,
    time_out := true }

/-- A sample running chronometer. -/
def chronW : Chronometer :=
  { running := true, startMark := some 1, endMark := none, stopElapsed := 2 }

/-- C1: for every sequence of start/stop calls from a fresh chronometer that
leaves it stopped, `partial` equals the total duration of the running
intervals of the sequence; and in general `partial` is the accumulated stop
value when stopped, and the accumulated stop value plus the time since the
recorded start when running. -/
theorem claim1_elapsed_sums_intervals (ops : List ChronOp) (now : ℚ)
    (hstopped : (Chronometer.init.exec ops).running = false) :
    (Chronometer.init.exec ops).elapsed now = intervalSum ops ∧
    (∀ c : Chronometer, c.running = false → c.elapsed now = c.stopElapsed) ∧
    (∀ c : Chronometer, c.running = true →
      c.elapsed now = c.stopElapsed + (now - c.startMark.getD 0)) := by
  obtain ⟨h1, h2, h3⟩ :=
    exec_specState ops Chronometer.init none 0 (by simp [Chronometer.init])
      (by intro τ hτ; cases hτ) rfl
  refine ⟨?_, ?_, ?_⟩
  · simp [Chronometer.elapsed, hstopped, intervalSum, h3]
  · intro c h
    simp [Chronometer.elapsed, h]
  · intro c h
    simp only [Chronometer.elapsed, h, if_true]
    ring

/-- Witness for C1 on `demoOps`: the chronometer ends stopped and its
`partial` equals the interval sum `(5-2) + (11-7) = 7`. -/
theorem claim1_witness :
    (Chronometer.init.exec demoOps).running = false ∧
    (Chronometer.init.exec demoOps).elapsed 20 = intervalSum demoOps :=
  ⟨by decide, (claim1_elapsed_sums_intervals demoOps 20 (by decide)).1⟩

/-- C4: after `reset()`, on a chronometer and on a timer, `partial` is `0`
and `running` is `false`; on a timer the expired flag is cleared as well. -/
theorem claim4_reset_zeroes {α : Type} (c : Chronometer) (t : Timer α)
    (now now2 : ℚ) :
    (c.reset now).elapsed now2 = 0 ∧ (c.reset now).running = false ∧
    (t.reset now).elapsed now2 = 0 ∧ (t.reset now).running = false ∧
    (t.reset now).time_out = false := by
  refine ⟨?_, rfl, ?_, rfl, rfl⟩
  · simp [Chronometer.reset, Chronometer.stop, Chronometer.elapsed]
  · simp [Timer.reset, Timer.stop, Timer.elapsed, Chronometer.stop,
      Chronometer.elapsed]

/-- C7 fails as stated: on a `Timer` whose expired flag is set, `reset()`
clears the flag but `stop(reset=True)` leaves it set, so the two final
states differ. -/
theorem claim7_counterexample :
    ¬ (timerExpired.reset 0 = timerExpired.stop true 0) := by
  decide

/-- C7 amended: on a `Chronometer`, `reset()` is exactly `stop(reset=True)`;
on a `Timer`, `reset()` is `stop(reset=True)` followed by clearing the
expired flag, and the two coincide exactly when the expired flag is already
clear. -/
theorem claim7_amended {α : Type} (c : Chronometer) (t : Timer α) (now : ℚ) :
    c.reset now = c.stop true now ∧
    t.reset now = { t.stop true now with time_out := false } ∧
    (t.time_out = false → t.reset now = t.stop true now) := by
  refine ⟨rfl, rfl, ?_⟩
  intro h
  simp [Timer.reset, Timer.stop, h]

/-- Witness for the amended C7 on a non-expired timer. -/
theorem claim7_witness :
    timerW.time_out = false ∧ timerW.reset 0 = timerW.stop true 0 :=
  ⟨rfl, (claim7_amended Chronometer.init timerW 0).2.2 rfl⟩

/-- C8: `Chronometer.start` on an already running chronometer is a no-op:
the state, hence the running flag, the recorded start and the accumulated
time, is unchanged. -/
theorem claim8_start_idempotent (c : Chronometer) (now : ℚ)
    (h : c.running = true) : c.start now = c := by
  simp [Chronometer.start, h]

/-- Witness for C8 on a concrete running chronometer. -/
theorem claim8_witness : chronW.running = true ∧ chronW.start 5 = chronW :=
  ⟨rfl, claim8_start_idempotent chronW 5 rfl⟩

/-- A sample timer that was stopped mid-countdown: 2 of 5 seconds used. -/
def timerStopped : Timer Unit :=
  { chr := { running := false, startMark := some 0, endMark := none,
             stopElapsed := 2 },
    time_limit := 5, callback := some (), time_out := false }

/-- C2: a running timer with a callback whose polling task observes
`time_left == 0` at one of its wake-ups stops, sets the expired flag,
invokes the callback exactly once, and terminates. -/
theorem claim2_expiry_fires_once {α : Type} (t : Timer α) (nows : List ℚ)
    (hrun : t.running = true) (hcb : t.callback.isSome = true)
    (hexp : ∃ n ∈ nows, t.time_left n = 0) :
    (t.timeOutRun nows).1 = 1 ∧
    ((t.timeOutRun nows).2.1).running = false ∧
    ((t.timeOutRun nows).2.1).time_out = true ∧
    (t.timeOutRun nows).2.2 = true := by
  revert hexp
  induction nows with
  | nil =>
    intro hexp
    simp at hexp
  | cons now rest ih =>
    intro hexp
    by_cases h : t.time_left now > 0
    · have hstep : t.timeOutStep now = .sleeping t := by
        simp [Timer.timeOutStep, hrun, h]
      have hrw : t.timeOutRun (now :: rest) = t.timeOutRun rest := by
        simp [Timer.timeOutRun, hstep]
      rw [hrw]
      obtain ⟨n, hn, hn0⟩ := hexp
      rcases List.mem_cons.mp hn with rfl | hmem
      · rw [hn0] at h
        exact absurd h (lt_irrefl 0)
      · exact ih ⟨n, hmem, hn0⟩
    · have hstep : t.timeOutStep now =
          .finished true { t.stop false now with time_out := true } := by
        simp [Timer.timeOutStep, hrun, h, Timer.stop, hcb]
      have hrw : t.timeOutRun (now :: rest) =
          (1, { t.stop false now with time_out := true }, true) := by
        simp [Timer.timeOutRun, hstep]
      rw [hrw]
      exact ⟨rfl, by simp [Timer.running, Timer.stop, Chronometer.stop],
        rfl, rfl⟩

/-- Witness for C2: a one-second timer polled at 0.3s intervals fires once
at the fourth wake-up and ends stopped and expired. -/
theorem claim2_witness :
    (timerW.timeOutRun [3/10, 6/10, 9/10, 12/10]).1 = 1 ∧
    ((timerW.timeOutRun [3/10, 6/10, 9/10, 12/10]).2.1).running = false ∧
    ((timerW.timeOutRun [3/10, 6/10, 9/10, 12/10]).2.1).time_out = true ∧
    (timerW.timeOutRun [3/10, 6/10, 9/10, 12/10]).2.2 = true :=
  claim2_expiry_fires_once timerW _ rfl rfl
    ⟨12/10, by norm_num,
      by norm_num [Timer.time_left, Timer.elapsed, Chronometer.elapsed,
        timerW]⟩

/-- C3: `time_left` is `max(0, duration - partial)`, never negative, and
non-increasing in the clock while the timer runs. -/
theorem claim3_time_left_clamped {α : Type} (t : Timer α) (n n1 n2 : ℚ) :
    t.time_left n = max 0 (t.time_limit - t.elapsed n) ∧
    0 ≤ t.time_left n ∧
    (t.running = true → n1 ≤ n2 → t.time_left n2 ≤ t.time_left n1) := by
  refine ⟨?_, ?_, ?_⟩
  · simp only [Timer.time_left]
    exact clamp_eq_max _
  · simp only [Timer.time_left]
    rw [clamp_eq_max]
    exact le_max_left _ _
  · intro hr h12
    have hr' : t.chr.running = true := hr
    simp only [Timer.time_left, Timer.elapsed, Chronometer.elapsed, hr',
      if_true]
    split_ifs <;> linarith

/-- Witness for C3: on a concrete running timer, `time_left` at a later
clock reading is at most `time_left` at an earlier one. -/
theorem claim3_witness :
    timerW.running = true ∧
    timerW.time_left (6/10) ≤ timerW.time_left (3/10) :=
  ⟨rfl, (claim3_time_left_clamped timerW 0 (3/10) (6/10)).2.2 rfl
    (by norm_num)⟩

/-- C5: the polling task of a timer that is not running invokes no callback,
and on its first wake-up it terminates leaving the timer unchanged. -/
theorem claim5_stopped_never_fires {α : Type} (t : Timer α) (nows : List ℚ)
    (h : t.running = false) :
    (t.timeOutRun nows).1 = 0 ∧
    (nows ≠ [] →
      (t.timeOutRun nows).2.1 = t ∧ (t.timeOutRun nows).2.2 = true) := by
  cases nows with
  | nil => exact ⟨rfl, fun hne => absurd rfl hne⟩
  | cons now rest =>
    have hstep : t.timeOutStep now = .finished false t := by
      simp [Timer.timeOutStep, h]
    have hrw : t.timeOutRun (now :: rest) = (0, t, true) := by
      simp [Timer.timeOutRun, hstep]
    rw [hrw]
    exact ⟨rfl, fun _ => ⟨rfl, rfl⟩⟩

/-- Witness for C5: a timer stopped with 3 of 5 seconds left never fires. -/
theorem claim5_witness :
    timerStopped.running = false ∧
    (timerStopped.timeOutRun [1, 2]).1 = 0 :=
  ⟨rfl, (claim5_stopped_never_fires timerStopped [1, 2] rfl).1⟩

/-- A freshly restarted timer reads the full (clamped) duration. -/
theorem time_left_fresh {α : Type} (limit : ℚ) (cb : Option α)
    (e : Option ℚ) (now : ℚ) :
    ({ chr := { running := true, startMark := some now, endMark := e,
                stopElapsed := 0 },
       time_limit := limit, callback := cb, time_out := false } :
      Timer α).time_left now = max 0 limit := by
  simp [Timer.time_left, Timer.elapsed, Chronometer.elapsed, clamp_eq_max]

/-- C6: `start()` on an expired timer implicitly resets (expired flag and
accumulated time cleared) and re-arms: the timer runs and `time_left` starts
again at the full duration. -/
theorem claim6_start_rearms {α : Type} (t : Timer α) (now : ℚ)
    (h : t.time_out = true) :
    (t.start now).time_out = false ∧
    (t.start now).running = true ∧
    (t.start now).chr.stopElapsed = 0 ∧
    (t.start now).time_left now = max 0 t.time_limit ∧
    (0 ≤ t.time_limit → (t.start now).time_left now = t.time_limit) := by
  have hs : t.start now =
      { chr := { running := true, startMark := some now,
                 endMark := t.chr.endMark, stopElapsed := 0 },
        time_limit := t.time_limit, callback := t.callback,
        time_out := false } := by
    simp [Timer.start, h, Timer.reset, Timer.stop, Chronometer.stop,
      Chronometer.start]
  rw [hs]
  refine ⟨rfl, rfl, rfl, time_left_fresh _ _ _ _, ?_⟩
  intro h0
  rw [time_left_fresh]
  exact max_eq_right h0

/-- Witness for C6: restarting the expired 5-second timer re-arms it with
`time_left` equal to the full 5 seconds. -/
theorem claim6_witness :
    timerExpired.time_out = true ∧
    (timerExpired.start 2).time_left 2 = 5 :=
  ⟨rfl, (claim6_start_rearms timerExpired 2 rfl).2.2.2.2
    (by norm_num [timerExpired])⟩

/-- C9: `__copy__` (and `__deepcopy__` through it) returns the original
timer itself, callback included, while the cleaned copy it builds has its
callback removed and is discarded: when a callback is set, the returned
value differs from the discarded one. -/
theorem claim9_copy_returns_self {α : Type} (t : Timer α) :
    t.copy = t ∧ t.deepcopy = t ∧ t.copy.callback = t.callback ∧
    t.copyDiscarded.callback = none ∧
    (t.callback.isSome = true → t.copy ≠ t.copyDiscarded) := by
  refine ⟨rfl, rfl, rfl, rfl, ?_⟩
  intro hs heq
  have hcb : t.callback = none := by
    have := congrArg Timer.callback heq
    simpa [Timer.copy, Timer.copyDiscarded] using this
  rw [hcb] at hs
  simp at hs

/-- Witness for C9 on a timer carrying a callback. -/
theorem claim9_witness :
    timerW.callback.isSome = true ∧ timerW.copy ≠ timerW.copyDiscarded :=
  ⟨rfl, (claim9_copy_returns_self timerW).2.2.2.2 rfl⟩

/-- C10: both decorator wrappers invoke the wrapped callable exactly once
with the original arguments (the method wrapper also forwards the receiver)
and hand `None` back to the caller, discarding the callable's result. -/
theorem claim10_wrappers_return_none {γ β σ : Type}
    (d : ChronometerDecorator) (f : γ → β) (g : σ → γ → β) (s : σ) (x : γ)
    (t0 t1 : ℚ) :
    (d.function_call f x t0 t1).value = none ∧
    (d.function_call f x t0 t1).calls = [x] ∧
    (ChronometerDecorator.method_call s d g x t0 t1).value = none ∧
    (ChronometerDecorator.method_call s d g x t0 t1).calls = [(s, x)] :=
  ⟨rfl, rfl, rfl, rfl⟩
